import Mathlib

/-!
Verification development for the CortexAI request dispatch and fan-out
orchestrator.  The definitions below are shallow embeddings of the Python
source under `src/server/routes/chat.py`, `src/server/routes/compare.py`
and `src/server/schemas/requests.py`.  Python strings are modelled as
`List Char`; Python floats (timeouts, costs) as `ℚ`; fallible lookups as
`Option`.
-/

set_option maxRecDepth 20000

/-- Python strings, modelled as lists of characters. -/
abbrev PyStr := List Char

/-- ASCII whitespace recognised by Python `str.strip()` (the claims only
exercise ASCII input, so the wider Unicode whitespace set is not needed). -/
def pyIsSpace (c : Char) : Bool :=
  c = ' ' || c = '\t' || c = '\n' || c = '\r' || c = '\x0b' || c = '\x0c'

/-- Python `str.strip()`: drop leading and trailing whitespace. -/
def pyStrip (s : PyStr) : PyStr :=
  ((s.dropWhile pyIsSpace).reverse.dropWhile pyIsSpace).reverse

/-- ASCII lower-casing of one character, as Python `str.lower()` acts on
the ASCII range (the keyword tables are all ASCII). -/
def pyCharLower (c : Char) : Char :=
  if 'A' ≤ c ∧ c ≤ 'Z' then Char.ofNat (c.toNat + 32) else c

/-- Python `str.lower()` (ASCII fragment). -/
def pyLower (s : PyStr) : PyStr := s.map pyCharLower

/-- Line-break characters recognised by Python `str.splitlines`. -/
def isLineBreak (c : Char) : Bool :=
  c = '\n' || c = '\r' || c = '\x0b' || c = '\x0c' ||
  c = '\x1c' || c = '\x1d' || c = '\x1e' || c = '\x85' ||
  c = '\u2028' || c = '\u2029'

/-- Worker for `splitlines`: `acc` holds the current line, reversed. -/
def splitlinesAux : PyStr → PyStr → List PyStr
  | [], acc => if acc = [] then [] else [acc.reverse]
  | '\r' :: '\n' :: rest, acc => (acc.reverse ++ ['\r', '\n']) :: splitlinesAux rest []
  | c :: rest, acc =>
      if isLineBreak c then (acc.reverse ++ [c]) :: splitlinesAux rest []
      else splitlinesAux rest (c :: acc)

/-- Python `text.splitlines(keepends=True)`. -/
def splitlines (s : PyStr) : List PyStr := splitlinesAux s []

/-- The list comprehension `[text[i:i + 120] for i in range(0, len(text), 120)]`
from `_iter_stream_lines` (chunk_size is the literal 120 in the source).
`range(0, n, 120)` enumerates the multiples `120*i` for `i < ⌈n/120⌉`, and
`text[i:i + 120]` is `(text.drop i).take 120`. -/
def chunk120 (s : PyStr) : List PyStr :=
  (List.range ((s.length + 119) / 120)).map (fun i => (s.drop (120 * i)).take 120)

/-- `_iter_stream_lines` from `src/server/routes/chat.py` (an identical copy
lives in `src/server/routes/compare.py`): split response text into line
chunks while preserving newline boundaries; one long unbroken block is cut
into 120-character chunks. -/
def iter_stream_lines (text : PyStr) : List PyStr :=
  if text = [] then []
  else
    let lines := splitlines text
    if lines.length ≤ 1 then chunk120 text else lines

/-! ## Unified result model

`models/unified_response.py` is not part of the extracted sources; the
shapes below are modelled from spec §3 exactly as the route code
constructs and consumes them (`TokenUsage(0, 0, 0)`, `NormalizedError(...)`,
`UnifiedResponse(...)` in `compare.py`).  `ChatResponseDTO.from_unified_response`
is modelled as the identity, per spec §6 the response DTO serialises the
`UnifiedResponse` fields unchanged.  Monetary amounts and timeouts are `ℚ`. -/

/-- Modelled from the spec: `TokenUsage` (§3), produced by the routes only
as `TokenUsage(0, 0, 0)`. -/
structure TokenUsage where
  prompt_tokens : Nat
  completion_tokens : Nat
  total_tokens : Nat
deriving DecidableEq, Inhabited

/-- Modelled from the spec: `NormalizedError` (§3).  `details` is a
string-keyed map whose only populated value in the routes is the numeric
`timeout_seconds`. -/
structure NormalizedError where
  code : String
  message : PyStr
  provider : PyStr
  retryable : Bool
  details : List (String × ℚ)
deriving DecidableEq, Inhabited

/-- Modelled from the spec: `UnifiedResponse` (§3), with the fields the
routes construct and read. -/
structure UnifiedResponse where
  request_id : String
  text : PyStr
  provider : PyStr
  model : PyStr
  latency_ms : Nat
  token_usage : TokenUsage
  estimated_cost : ℚ
  finish_reason : String
  error : Option NormalizedError
deriving DecidableEq, Inhabited

/-! ## Routing policy (`src/server/routes/chat.py`) -/

/-- The `code_signals` tuple of `_pick_smart_provider`. -/
def code_signals : List PyStr :=
  ["code", "bug", "debug", "stack trace", "python", "javascript", "typescript",
   "sql", "api", "refactor", "algorithm", "function", "class ", "exception"
  ].map String.toList

/-- The `deep_reasoning_signals` tuple of `_pick_smart_provider`. -/
def deep_reasoning_signals : List PyStr :=
  ["analyze", "analysis", "tradeoff", "architecture", "design", "compare",
   "step by step", "explain why", "root cause", "research", "cite"
  ].map String.toList

/-- The `creative_signals` tuple of `_pick_smart_provider`. -/
def creative_signals : List PyStr :=
  ["poem", "story", "creative", "brainstorm", "tagline", "tweet"].map String.toList

/-- Python `signal in text` (substring containment). -/
def pyIn (signal text : PyStr) : Bool := decide (signal <:+: text)

/-- `_pick_smart_provider` from `src/server/routes/chat.py`: keyword-based
provider choice over the lower-cased prompt. -/
def pick_smart_provider (prompt : PyStr) (smart_mode research_mode : Bool) : PyStr :=
  let text := pyLower prompt
  if !smart_mode then "gemini".toList
  else if research_mode then "openai".toList
  else if code_signals.any (fun signal => pyIn signal text) then "deepseek".toList
  else if deep_reasoning_signals.any (fun signal => pyIn signal text) || text.length > 900 then
    "openai".toList
  else if creative_signals.any (fun signal => pyIn signal text) then "grok".toList
  else "gemini".toList

/-- The `DEFAULT_MODELS` table of `src/server/routes/chat.py`. -/
def DEFAULT_MODELS : List (PyStr × PyStr) :=
  [("openai", "gpt-4o"), ("gemini", "gemini-2.5-flash"),
   ("deepseek", "deepseek-chat"), ("grok", "grok-4-latest")
  ].map (fun p => (p.1.toList, p.2.toList))

/-- ASCII upper-casing, as Python `str.upper()` acts on the ASCII range. -/
def pyUpper (s : PyStr) : PyStr :=
  s.map (fun c => if 'a' ≤ c ∧ c ≤ 'z' then Char.ofNat (c.toNat - 32) else c)

/-- `_default_model_for_provider` from `src/server/routes/chat.py`:
`os.getenv(f"DEFAULT_{provider.upper()}_MODEL", DEFAULT_MODELS[provider])`.
`getenv` is the environment lookup (external collaborator), modelled as a
function argument.  Python evaluates `DEFAULT_MODELS[provider]` eagerly, so
an unknown provider raises `KeyError` regardless of the environment;
`none` models that raise. -/
def default_model_for_provider (getenv : PyStr → Option PyStr) (provider : PyStr) :
    Option PyStr :=
  match DEFAULT_MODELS.lookup provider with
  | none => none
  | some d =>
      some ((getenv ("DEFAULT_".toList ++ pyUpper provider ++ "_MODEL".toList)).getD d)

/-- Routing hints `{smart_mode, research_mode}` (spec §6; read by
`_resolve_chat_target` as `request.routing`). -/
structure RoutingHints where
  smart_mode : Bool
  research_mode : Bool
deriving DecidableEq, Inhabited

/-- The chat request as `src/server/routes/chat.py` reads it: `prompt`,
optional `provider`/`model`, optional `routing`. -/
structure ChatRequestData where
  prompt : PyStr
  provider : Option PyStr
  model : Option PyStr
  routing : Option RoutingHints
deriving DecidableEq, Inhabited

/-- `_resolve_chat_target` from `src/server/routes/chat.py`.  Returns
`none` exactly when `_default_model_for_provider` raises `KeyError`. -/
def resolve_chat_target (getenv : PyStr → Option PyStr) (request : ChatRequestData) :
    Option (PyStr × PyStr) :=
  let manual_provider := pyLower (pyStrip (request.provider.getD []))
  let manual_model := pyStrip (request.model.getD [])
  if manual_provider ≠ [] then
    if manual_model ≠ [] then some (manual_provider, manual_model)
    else (default_model_for_provider getenv manual_provider).map
      (fun d => (manual_provider, d))
  else
    let smart_mode := match request.routing with
      | none => true
      | some routing => routing.smart_mode
    let research_mode := match request.routing with
      | none => false
      | some routing => routing.research_mode
    let provider := pick_smart_provider request.prompt smart_mode research_mode
    (default_model_for_provider getenv provider).map (fun d => (provider, d))

/-! ## Compare stream (`src/server/routes/compare.py`)

The `event_stream` generator of `compare_stream` is embedded as a pure
function of (a) the request data, (b) oracles for the effects it consumes
(`orchestrator.ask` results, timeout expiry, `uuid4`, wall clock), and of
(c) the order in which `asyncio.as_completed` delivers the per-target
tasks, given as an index list `perm`.  Any interleaving the scheduler can
produce is a permutation of the launched task indices; theorems quantify
over every such `perm`. -/

/-- One element of `request.targets` as the route reads it (`target.provider`,
`target.model`, both read through `or ""`). -/
structure CompareTargetData where
  provider : Option PyStr
  model : Option PyStr
deriving DecidableEq, Inhabited

/-- `provider = (target.provider or "").strip().lower()`. -/
def targetProvider (t : CompareTargetData) : PyStr :=
  pyLower (pyStrip (t.provider.getD []))

/-- `model = (target.model or "").strip()`. -/
def targetModel (t : CompareTargetData) : PyStr := pyStrip (t.model.getD [])

/-- Negation of the guard `if not provider or not model` in `event_stream`. -/
def targetValid (t : CompareTargetData) : Bool :=
  !(targetProvider t).isEmpty && !(targetModel t).isEmpty

/-- `_make_error_response` from `src/server/routes/compare.py`.  `uuid4` is
modelled by the caller-supplied `rid`. -/
def make_error_response (rid : String) (provider model : PyStr) (code : String)
    (message : PyStr) (retryable : Bool) (details : List (String × ℚ)) :
    UnifiedResponse :=
  { request_id := rid
    text := []
    provider := if provider.isEmpty then "unknown".toList else provider
    model := if model.isEmpty then "unknown".toList else model
    latency_ms := 0
    token_usage := ⟨0, 0, 0⟩
    estimated_cost := 0
    finish_reason := "error"
    error := some
      { code := code
        message := message
        provider := if provider.isEmpty then "unknown".toList else provider
        retryable := retryable
        details := details } }

/-- The f-string `f"Request timed out after {timeout_s}s"`. -/
def timeoutMessage (timeout_s : ℚ) : PyStr :=
  "Request timed out after ".toList ++ (toString timeout_s).toList ++ "s".toList

/-- The environment of one `compare_stream` request: the request data plus
oracles for the effects the generator consumes.  `askResult i` is the
`UnifiedResponse` that `orchestrator.ask` returns for target `i` (spec
§4.4: `ask` encodes every failure in its return value and never raises);
`timesOut i` says whether target `i`'s call exceeds the configured timeout;
`rid i` is the `uuid4` drawn by `_make_error_response` for target `i`;
`group_id` and `timestamp` are the `uuid4` and UTC timestamp drawn for the
final aggregate. -/
structure CompareEnv where
  targets : List CompareTargetData
  timeout_s : Option ℚ
  research_mode : Bool
  askResult : Nat → UnifiedResponse
  timesOut : Nat → Bool
  rid : Nat → String
  group_id : String
  timestamp : String

/-- Target `i` of the request (total accessor). -/
def CompareEnv.target (env : CompareEnv) (i : Nat) : CompareTargetData :=
  env.targets.getD i default

/-- `_run_compare_target` from `src/server/routes/compare.py`: the ask call
for one valid target, with `asyncio.TimeoutError` captured as a normalized
timeout response.  The guard `if timeout_s` is Python truthiness: a missing
(or zero) `timeout_s` awaits the call with no timeout. -/
def run_compare_target (env : CompareEnv) (i : Nat) : UnifiedResponse :=
  match env.timeout_s with
  | none => env.askResult i
  | some t =>
      if t ≠ 0 ∧ env.timesOut i then
        make_error_response (env.rid i) (targetProvider (env.target i))
          (targetModel (env.target i)) "timeout" (timeoutMessage t) true
          [("timeout_seconds", t)]
      else env.askResult i

/-- The `bad` response built inline in `event_stream` for an invalid target
(note the call site already applies `provider or "unknown"` before
`_make_error_response` does it again). -/
def badResponse (env : CompareEnv) (i : Nat) : UnifiedResponse :=
  let provider := targetProvider (env.target i)
  let model := targetModel (env.target i)
  make_error_response (env.rid i)
    (if provider.isEmpty then "unknown".toList else provider)
    (if model.isEmpty then "unknown".toList else model)
    "bad_request"
    ("Invalid model config: provider=\x27".toList ++ provider ++
      "\x27, model=\x27".toList ++ model ++ "\x27".toList)
    false []

/-- `ordered_responses` right after the launch loop: slot `i` holds the
inline `bad_request` response when target `i` is invalid, `None` otherwise. -/
def initialResponses (env : CompareEnv) : List (Option UnifiedResponse) :=
  (List.range env.targets.length).map (fun i =>
    if targetValid (env.target i) then none else some (badResponse env i))

/-- Indices of the targets for which `event_stream` launches a task. -/
def validIndices (env : CompareEnv) : List Nat :=
  (List.range env.targets.length).filter (fun i => targetValid (env.target i))

/-- The `as_completed` loop: each finished task writes its own slot
(`ordered_responses[idx] = dto`), in completion order `perm`. -/
def fillResponses (env : CompareEnv) (perm : List Nat) : List (Option UnifiedResponse) :=
  perm.foldl (fun arr idx => arr.set idx (some (run_compare_target env idx)))
    (initialResponses env)

/-- `dtos = [r for r in ordered_responses if r is not None]`. -/
def compareDtos (env : CompareEnv) (perm : List Nat) : List UnifiedResponse :=
  (fillResponses env perm).filterMap id

/-- The `compare_payload` dict carried by the final `done` event. -/
structure ComparePayload where
  request_group_id : String
  responses : List UnifiedResponse
  success_count : Nat
  error_count : Nat
  total_tokens : Nat
  total_cost : ℚ
  timestamp : String
deriving DecidableEq

/-- `compare_payload` as `event_stream` computes it, recomputed from the
collected response list. -/
def comparePayload (env : CompareEnv) (perm : List Nat) : ComparePayload :=
  let dtos := compareDtos env perm
  { request_group_id := env.group_id
    responses := dtos
    success_count := (dtos.filter (fun r => r.error.isNone)).length
    error_count := (dtos.filter (fun r => r.error.isSome)).length
    total_tokens := (dtos.map (fun r => r.token_usage.total_tokens)).sum
    total_cost := (dtos.map (fun r => r.estimated_cost)).sum
    timestamp := env.timestamp }

/-- NDJSON events of the compare stream. -/
inductive CompareEvent where
  | start (target_count : Nat) (research_mode : Bool)
  | response_start (index : Nat) (provider model : PyStr)
  | line (index : Nat) (text : PyStr)
  | response_done (index : Nat) (response : UnifiedResponse)
  | done (compare : ComparePayload)
  | error (message : String)
deriving DecidableEq

/-- `stream_text` for an invalid target:
`f"Error: {bad_dto.error.message}" if bad_dto.error else ""`. -/
def badStreamText (r : UnifiedResponse) : PyStr :=
  match r.error with
  | some e => "Error: ".toList ++ e.message
  | none => []

/-- `stream_text` for a completed target: `dto.text or ""`, replaced by
`f"Error: {dto.error.message}"` when empty and errored. -/
def streamText (r : UnifiedResponse) : PyStr :=
  if r.text.isEmpty then
    match r.error with
    | some e => "Error: ".toList ++ e.message
    | none => []
  else r.text

/-- The `response_start` / `line`* / `response_done` block events for one
response at index `i`, with `stream_text` as computed by the caller. -/
def responseBlock (i : Nat) (r : UnifiedResponse) (text : PyStr) : List CompareEvent :=
  CompareEvent.response_start i r.provider r.model
    :: (iter_stream_lines text).map (CompareEvent.line i)
    ++ [CompareEvent.response_done i r]

/-- The full event sequence of `compare_stream.event_stream` for completion
order `perm`: one `start`, the inline blocks for invalid targets in request
order, the blocks of launched tasks in completion order, and the final
`done` event carrying the aggregate. -/
def compareEvents (env : CompareEnv) (perm : List Nat) : List CompareEvent :=
  CompareEvent.start env.targets.length env.research_mode
    :: (((List.range env.targets.length).filter
          (fun i => !targetValid (env.target i))).map
          (fun i => responseBlock i (badResponse env i)
            (badStreamText (badResponse env i)))).flatten
    ++ (perm.map (fun i => responseBlock i (run_compare_target env i)
          (streamText (run_compare_target env i)))).flatten
    ++ [CompareEvent.done (comparePayload env perm)]

/-- What finally lands in slot `i` of `ordered_responses`: the inline
`bad_request` response for an invalid target, the task's result otherwise. -/
def targetOutcome (env : CompareEnv) (i : Nat) : UnifiedResponse :=
  if targetValid (env.target i) then run_compare_target env i else badResponse env i

lemma foldl_set_length (f : Nat → UnifiedResponse) (perm : List Nat)
    (arr : List (Option UnifiedResponse)) :
    (perm.foldl (fun a idx => a.set idx (some (f idx))) arr).length = arr.length := by
  induction perm generalizing arr with
  | nil => rfl
  | cons x rest ih => simpa [List.foldl_cons, List.length_set] using ih (arr.set x (some (f x)))

lemma foldl_set_getElem?_of_not_mem (f : Nat → UnifiedResponse) (perm : List Nat)
    (arr : List (Option UnifiedResponse)) (i : Nat) (h : ∀ x ∈ perm, x ≠ i) :
    (perm.foldl (fun a idx => a.set idx (some (f idx))) arr)[i]? = arr[i]? := by
  induction perm generalizing arr with
  | nil => rfl
  | cons x rest ih =>
      have hx : x ≠ i := h x (by simp)
      have hrest : ∀ y ∈ rest, y ≠ i := fun y hy => h y (by simp [hy])
      rw [List.foldl_cons, ih (arr.set x (some (f x))) hrest,
        List.getElem?_set_ne hx]

lemma foldl_set_getElem?_of_mem (f : Nat → UnifiedResponse) (perm : List Nat)
    (arr : List (Option UnifiedResponse)) (i : Nat) (hi : i < arr.length)
    (h : i ∈ perm) :
    (perm.foldl (fun a idx => a.set idx (some (f idx))) arr)[i]? = some (some (f i)) := by
  induction perm generalizing arr with
  | nil => cases h
  | cons x rest ih =>
      rw [List.foldl_cons]
      by_cases hrest : i ∈ rest
      · exact ih (arr.set x (some (f x))) (by simpa [List.length_set] using hi) hrest
      · have hx : x = i := by
          rcases List.mem_cons.mp h with h' | h'
          · exact h'.symm
          · exact absurd h' hrest
      
        subst hx
        rw [foldl_set_getElem?_of_not_mem f rest _ x
          (fun y hy => fun hyx => hrest (hyx ▸ hy)),
          List.getElem?_set_self hi]

lemma initialResponses_length (env : CompareEnv) :
    (initialResponses env).length = env.targets.length := by
  simp [initialResponses]

lemma initialResponses_getElem? (env : CompareEnv) (i : Nat)
    (hi : i < env.targets.length) :
    (initialResponses env)[i]? =
      some (if targetValid (env.target i) then none else some (badResponse env i)) := by
  simp [initialResponses, List.getElem?_map, List.getElem?_range hi]

lemma mem_validIndices (env : CompareEnv) (i : Nat) :
    i ∈ validIndices env ↔ i < env.targets.length ∧ targetValid (env.target i) := by
  simp [validIndices, List.mem_filter, List.mem_range]

/-- Under any completion order that delivers exactly the launched tasks,
slot `i` of the final `ordered_responses` holds `targetOutcome env i`. -/
lemma fillResponses_getElem? (env : CompareEnv) (perm : List Nat)
    (hperm : perm.Perm (validIndices env)) (i : Nat) (hi : i < env.targets.length) :
    (fillResponses env perm)[i]? = some (some (targetOutcome env i)) := by
  by_cases hv : targetValid (env.target i)
  · have hmem : i ∈ perm :=
      hperm.mem_iff.mpr ((mem_validIndices env i).mpr ⟨hi, hv⟩)
    rw [fillResponses, foldl_set_getElem?_of_mem _ _ _ _
      (by rw [initialResponses_length]; exact hi) hmem]
    simp [targetOutcome, hv]
  · have hnot : ∀ x ∈ perm, x ≠ i := by
      intro x hx hxi
      subst hxi
      exact hv ((mem_validIndices env x).mp (hperm.mem_iff.mp hx)).2
    rw [fillResponses, foldl_set_getElem?_of_not_mem _ _ _ _ hnot,
      initialResponses_getElem? env i hi]
    simp [targetOutcome, hv]

/-- The collected `dtos` list is exactly the per-target outcomes in request
order. -/
lemma compareDtos_eq (env : CompareEnv) (perm : List Nat)
    (hperm : perm.Perm (validIndices env)) :
    compareDtos env perm = (List.range env.targets.length).map (targetOutcome env) := by
  have hfill : fillResponses env perm =
      (List.range env.targets.length).map (fun i => some (targetOutcome env i)) := by
    apply List.ext_getElem?
    intro n
    by_cases hn : n < env.targets.length
    · rw [fillResponses_getElem? env perm hperm n hn,
        List.getElem?_map, List.getElem?_range hn]
      rfl
    · have h1 : (fillResponses env perm).length ≤ n := by
        rw [fillResponses, foldl_set_length, initialResponses_length]
        omega
      have h2 : ((List.range env.targets.length).map
          (fun i => some (targetOutcome env i))).length ≤ n := by
        simpa using Nat.le_of_not_lt hn
      rw [List.getElem?_eq_none h1, List.getElem?_eq_none h2]
  rw [compareDtos, hfill, List.filterMap_map]
  have hcomp : (id ∘ fun i => some (targetOutcome env i)) = some ∘ targetOutcome env := rfl
  rw [hcomp, List.filterMap_eq_map]

/-- The terminal event of the compare stream is the `done` event carrying
the aggregate payload. -/
lemma compareEvents_getLast? (env : CompareEnv) (perm : List Nat) :
    (compareEvents env perm).getLast?
      = some (CompareEvent.done (comparePayload env perm)) := by
  have h : ∀ (x d : CompareEvent) (l : List CompareEvent),
      (x :: (l ++ [d])).getLast? = some d := by
    intro x d l
    rw [show x :: (l ++ [d]) = (x :: l) ++ [d] from rfl]
    exact List.getLast?_concat _
  rw [compareEvents]
  exact h _ _ _

lemma length_filter_error_partition (l : List UnifiedResponse) :
    (l.filter (fun r => r.error.isNone)).length
      + (l.filter (fun r => r.error.isSome)).length = l.length := by
  induction l with
  | nil => rfl
  | cons a t ih =>
      cases ha : a.error <;> simp [List.filter_cons, ha] <;> omega

lemma targetValid_eq_true_iff (t : CompareTargetData) :
    targetValid t = true ↔
      (targetProvider t).isEmpty = false ∧ (targetModel t).isEmpty = false := by
  simp [targetValid]

lemma comparePayload_responses_getD (env : CompareEnv) (perm : List Nat)
    (hperm : perm.Perm (validIndices env)) (i : Nat) (hi : i < env.targets.length) :
    (comparePayload env perm).responses.getD i default = targetOutcome env i := by
  show (compareDtos env perm).getD i default = targetOutcome env i
  rw [compareDtos_eq env perm hperm, List.getD_eq_getElem?_getD,
    List.getElem?_map, List.getElem?_range hi]
  rfl

lemma run_compare_target_provider_model (env : CompareEnv) (i : Nat)
    (hp : (targetProvider (env.target i)).isEmpty = false)
    (hm : (targetModel (env.target i)).isEmpty = false)
    (h1 : (env.askResult i).provider = targetProvider (env.target i))
    (h2 : (env.askResult i).model = targetModel (env.target i)) :
    (run_compare_target env i).provider = targetProvider (env.target i) ∧
      (run_compare_target env i).model = targetModel (env.target i) := by
  unfold run_compare_target
  cases env.timeout_s with
  | none => exact ⟨h1, h2⟩
  | some t =>
      by_cases hcond : t ≠ 0 ∧ env.timesOut i = true
      · simp only [hcond, and_self, if_true, make_error_response, hp, hm]
        simp [hcond.1]
      · simp only [if_neg hcond]
        exact ⟨h1, h2⟩

/-- C1: for every compare-stream request, the aggregate carried by the final
`done` event lists responses in request order — under any completion order
`perm` of the launched tasks, and given that `orchestrator.ask` labels each
returned response with the requested provider and model (spec §4.4, the
orchestrator itself is outside the route sources), the `i`-th element of
the aggregate's `responses` carries the provider and the model of the
`i`-th requested target. -/
theorem compare_done_lists_responses_in_request_order
    (env : CompareEnv) (perm : List Nat)
    (hperm : perm.Perm (validIndices env))
    (hask : ∀ i, i < env.targets.length →
      (env.askResult i).provider = targetProvider (env.target i) ∧
        (env.askResult i).model = targetModel (env.target i))
    (hvalid : ∀ i, i < env.targets.length → targetValid (env.target i) = true)
    (i : Nat) (hi : i < env.targets.length) :
    (compareEvents env perm).getLast?
        = some (CompareEvent.done (comparePayload env perm)) ∧
      ((comparePayload env perm).responses.getD i default).provider
        = targetProvider (env.target i) ∧
      ((comparePayload env perm).responses.getD i default).model
        = targetModel (env.target i) := by
  refine ⟨compareEvents_getLast? env perm, ?_⟩
  rw [comparePayload_responses_getD env perm hperm i hi]
  have hv := hvalid i hi
  obtain ⟨hp, hm⟩ := (targetValid_eq_true_iff _).mp hv
  rw [targetOutcome, if_pos hv]
  exact run_compare_target_provider_model env i hp hm (hask i hi).1 (hask i hi).2

/-- Concrete compare environment used by the witnesses: two valid targets,
a 30-second timeout, no expiry, completion order reversed. -/
def sampleResponse (p m : PyStr) : UnifiedResponse :=
  { request_id := "r", text := "ok".toList, provider := p, model := m,
    latency_ms := 5, token_usage := ⟨1, 2, 3⟩, estimated_cost := 1/2,
    finish_reason := "stop", error := none }

def sampleEnv : CompareEnv :=
  { targets := [⟨some "openai".toList, some "gpt-4o".toList⟩,
                ⟨some "grok".toList, some "grok-4-latest".toList⟩]
    timeout_s := some 30
    research_mode := false
    askResult := fun i =>
      if i = 0 then sampleResponse "openai".toList "gpt-4o".toList
      else sampleResponse "grok".toList "grok-4-latest".toList
    timesOut := fun _ => false
    rid := fun _ => "rid"
    group_id := "gid"
    timestamp := "ts" }

/-- Witness for C1: with completion order `[1, 0]` (second target finishes
first), slot 1 of the aggregate still carries the second target. -/
theorem compare_done_lists_responses_in_request_order_witness :
    [1, 0].Perm (validIndices sampleEnv) ∧
      ((comparePayload sampleEnv [1, 0]).responses.getD 1 default).provider
        = targetProvider (sampleEnv.target 1) := by
  refine ⟨by decide, ?_⟩
  exact (compare_done_lists_responses_in_request_order sampleEnv [1, 0]
    (by decide) (by decide) (by decide) 1 (by decide)).2.1

/-- C2: the aggregate in the final `done` event satisfies
`success_count + error_count == len(responses)`,
`len(responses) == len(targets)`, and `total_tokens` / `total_cost` are the
sums of `token_usage.total_tokens` / `estimated_cost` over the collected
response list (recomputed from that list, not accumulated). -/
theorem compare_done_aggregate_invariants
    (env : CompareEnv) (perm : List Nat)
    (hperm : perm.Perm (validIndices env)) :
    (compareEvents env perm).getLast?
        = some (CompareEvent.done (comparePayload env perm)) ∧
      (comparePayload env perm).success_count + (comparePayload env perm).error_count
        = (comparePayload env perm).responses.length ∧
      (comparePayload env perm).responses.length = env.targets.length ∧
      (comparePayload env perm).total_tokens
        = ((comparePayload env perm).responses.map
            (fun r => r.token_usage.total_tokens)).sum ∧
      (comparePayload env perm).total_cost
        = ((comparePayload env perm).responses.map (fun r => r.estimated_cost)).sum := by
  refine ⟨compareEvents_getLast? env perm, ?_, ?_, rfl, rfl⟩
  · exact length_filter_error_partition (compareDtos env perm)
  · show (compareDtos env perm).length = env.targets.length
    rw [compareDtos_eq env perm hperm]
    simp

/-- Witness for C2 at the concrete two-target environment with reversed
completion order. -/
theorem compare_done_aggregate_invariants_witness :
    [1, 0].Perm (validIndices sampleEnv) ∧
      (comparePayload sampleEnv [1, 0]).success_count
          + (comparePayload sampleEnv [1, 0]).error_count
        = (comparePayload sampleEnv [1, 0]).responses.length := by
  exact ⟨by decide, (compare_done_aggregate_invariants sampleEnv [1, 0] (by decide)).2.1⟩

lemma run_compare_target_congr_timesOut (env : CompareEnv) (to2 : Nat → Bool) (j : Nat)
    (h : to2 j = env.timesOut j) :
    run_compare_target { env with timesOut := to2 } j = run_compare_target env j := by
  unfold run_compare_target
  cases env.timeout_s <;> simp [h, CompareEnv.target]

lemma targetOutcome_congr_timesOut (env : CompareEnv) (to2 : Nat → Bool) (j : Nat)
    (h : to2 j = env.timesOut j) :
    targetOutcome { env with timesOut := to2 } j = targetOutcome env j := by
  unfold targetOutcome
  by_cases hv : targetValid (env.target j) = true
  · have hv2 : targetValid (CompareEnv.target { env with timesOut := to2 } j) = true := hv
    rw [if_pos hv2, if_pos hv, run_compare_target_congr_timesOut env to2 j h]
  · have hv2 : ¬ targetValid (CompareEnv.target { env with timesOut := to2 } j) = true := hv
    rw [if_neg hv2, if_neg hv]
    rfl

/-- C3: a target whose call exceeds the caller-supplied `timeout_s` is
recorded at its own index as a normalized timeout error — `code="timeout"`,
`retryable=true`, `details` carrying `timeout_seconds`, empty text, zeroed
token usage — the recorded outcome of every other target does not depend on
that expiry, and when `timeout_s` is not provided `_run_compare_target`
returns the plain ask result (no timeout applied). -/
theorem compare_target_timeout_shape_and_isolation :
    (∀ (env : CompareEnv) (perm : List Nat), perm.Perm (validIndices env) →
      ∀ (t : ℚ), env.timeout_s = some t → t ≠ 0 →
      ∀ (i : Nat), i < env.targets.length → targetValid (env.target i) = true →
      env.timesOut i = true →
      (∃ e, ((comparePayload env perm).responses.getD i default).error = some e ∧
          e.code = "timeout" ∧ e.retryable = true ∧
          ("timeout_seconds", t) ∈ e.details) ∧
        ((comparePayload env perm).responses.getD i default).text = [] ∧
        ((comparePayload env perm).responses.getD i default).token_usage = ⟨0, 0, 0⟩ ∧
        (∀ to2 : Nat → Bool, (∀ j, j ≠ i → to2 j = env.timesOut j) →
          ∀ j, j < env.targets.length → j ≠ i →
            (comparePayload { env with timesOut := to2 } perm).responses.getD j default
              = (comparePayload env perm).responses.getD j default)) ∧
    (∀ (env : CompareEnv) (i : Nat), env.timeout_s = none →
      run_compare_target env i = env.askResult i) := by
  constructor
  · intro env perm hperm t hts ht i hi hv hto
    have houtcome : targetOutcome env i
        = make_error_response (env.rid i) (targetProvider (env.target i))
            (targetModel (env.target i)) "timeout" (timeoutMessage t) true
            [("timeout_seconds", t)] := by
      rw [targetOutcome, if_pos hv]
      unfold run_compare_target
      rw [hts]
      exact if_pos ⟨ht, hto⟩
    rw [comparePayload_responses_getD env perm hperm i hi, houtcome]
    refine ⟨⟨_, rfl, rfl, rfl, by simp⟩, rfl, rfl, ?_⟩
    intro to2 hagree j hj hji
    have hperm2 : perm.Perm (validIndices { env with timesOut := to2 }) := hperm
    rw [comparePayload_responses_getD { env with timesOut := to2 } perm hperm2 j hj,
      comparePayload_responses_getD env perm hperm j hj,
      targetOutcome_congr_timesOut env to2 j (hagree j hji)]
  · intro env i hts
    rw [run_compare_target, hts]

/-- A compare environment in which the first target's call expires. -/
def sampleTimeoutEnv : CompareEnv :=
  { sampleEnv with timesOut := fun i => i = 0 }

/-- A compare environment with no timeout configured. -/
def sampleNoTimeoutEnv : CompareEnv :=
  { sampleEnv with timeout_s := none }

/-- Witness for C3: in the concrete environment where target 0 expires
against the 30-second timeout, its slot carries a retryable timeout error
and target 1 is unaffected; with no timeout configured the ask result is
returned unchanged. -/
theorem compare_target_timeout_shape_and_isolation_witness :
    ([1, 0].Perm (validIndices sampleTimeoutEnv) ∧
      sampleTimeoutEnv.timeout_s = some 30 ∧
      sampleTimeoutEnv.timesOut 0 = true ∧
      (∃ e, ((comparePayload sampleTimeoutEnv [1, 0]).responses.getD 0 default).error
          = some e ∧ e.code = "timeout" ∧ e.retryable = true ∧
          ("timeout_seconds", (30 : ℚ)) ∈ e.details)) ∧
    (sampleNoTimeoutEnv.timeout_s = none ∧
      run_compare_target sampleNoTimeoutEnv 0 = sampleNoTimeoutEnv.askResult 0) := by
  constructor
  · refine ⟨by decide, rfl, by decide, ?_⟩
    exact (compare_target_timeout_shape_and_isolation.1 sampleTimeoutEnv [1, 0]
      (by decide) 30 rfl (by norm_num) 0 (by decide) (by decide) (by decide)).1
  · exact ⟨rfl, compare_target_timeout_shape_and_isolation.2 sampleNoTimeoutEnv 0 rfl⟩

/-- C4: a compare target whose provider or model is empty after stripping is
recorded as a synchronous zero-latency `bad_request` error
(`retryable=false`, empty text, zeroed usage), its index is never part of
the launched task list, and its recorded outcome does not depend on the ask
oracle, the expiry oracle, or the configured timeout — no Provider Client
is invoked, no concurrent task is launched, and the timeout budget is not
consumed for it. -/
theorem compare_invalid_target_synchronous_bad_request
    (env : CompareEnv) (perm : List Nat) (hperm : perm.Perm (validIndices env))
    (i : Nat) (hi : i < env.targets.length)
    (hinv : targetValid (env.target i) = false) :
    (∃ e, ((comparePayload env perm).responses.getD i default).error = some e ∧
        e.code = "bad_request" ∧ e.retryable = false) ∧
      ((comparePayload env perm).responses.getD i default).latency_ms = 0 ∧
      ((comparePayload env perm).responses.getD i default).text = [] ∧
      ((comparePayload env perm).responses.getD i default).token_usage = ⟨0, 0, 0⟩ ∧
      i ∉ validIndices env ∧
      (∀ (ask2 : Nat → UnifiedResponse) (to2 : Nat → Bool) (ts2 : Option ℚ),
        (comparePayload
            { env with askResult := ask2, timesOut := to2, timeout_s := ts2 }
            perm).responses.getD i default
          = (comparePayload env perm).responses.getD i default) := by
  have houtcome : targetOutcome env i = badResponse env i := by
    rw [targetOutcome, if_neg (by simp [hinv])]
  refine ⟨?_, ?_, ?_, ?_, ?_, ?_⟩
  · rw [comparePayload_responses_getD env perm hperm i hi, houtcome]
    exact ⟨_, rfl, rfl, rfl⟩
  · rw [comparePayload_responses_getD env perm hperm i hi, houtcome]; rfl
  · rw [comparePayload_responses_getD env perm hperm i hi, houtcome]; rfl
  · rw [comparePayload_responses_getD env perm hperm i hi, houtcome]; rfl
  · intro hmem
    rw [mem_validIndices] at hmem
    rw [hmem.2] at hinv
    cases hinv
  · intro ask2 to2 ts2
    have hperm2 : perm.Perm
        (validIndices { env with askResult := ask2, timesOut := to2, timeout_s := ts2 }) :=
      hperm
    rw [comparePayload_responses_getD _ perm hperm2 i hi,
      comparePayload_responses_getD env perm hperm i hi, houtcome]
    have hinv2 : targetValid
        (CompareEnv.target { env with askResult := ask2, timesOut := to2, timeout_s := ts2 } i)
          = false :=
      hinv
    rw [targetOutcome, if_neg (by simp [hinv2])]
    rfl

/-- A compare environment whose first target has an empty model. -/
def sampleBadEnv : CompareEnv :=
  { sampleEnv with
      targets := [⟨some "openai".toList, some "".toList⟩,
                  ⟨some "grok".toList, some "grok-4-latest".toList⟩] }

/-- Witness for C4: the empty-model target of the concrete environment is
recorded as a zero-latency `bad_request` error and launches no task. -/
theorem compare_invalid_target_synchronous_bad_request_witness :
    [1].Perm (validIndices sampleBadEnv) ∧
      targetValid (sampleBadEnv.target 0) = false ∧
      (∃ e, ((comparePayload sampleBadEnv [1]).responses.getD 0 default).error
          = some e ∧ e.code = "bad_request" ∧ e.retryable = false) ∧
      0 ∉ validIndices sampleBadEnv := by
  refine ⟨by decide, by decide, ?_, ?_⟩
  · exact (compare_invalid_target_synchronous_bad_request sampleBadEnv [1]
      (by decide) 0 (by decide) (by decide)).1
  · exact (compare_invalid_target_synchronous_bad_request sampleBadEnv [1]
      (by decide) 0 (by decide) (by decide)).2.2.2.2.1

lemma pyIn_replicate_a_eq_false (signal : PyStr) (c : Char) (hc : c ∈ signal)
    (hca : c ≠ 'a') (n : Nat) :
    pyIn signal (List.replicate n 'a') = false := by
  rw [pyIn, decide_eq_false_iff_not]
  intro hinf
  have hmem : c ∈ List.replicate n 'a' := hinf.subset hc
  rw [List.mem_replicate] at hmem
  exact hca hmem.2

lemma pyLower_replicate_a (n : Nat) :
    pyLower (List.replicate n 'a') = List.replicate n 'a' := by
  rw [pyLower, List.map_replicate, show pyCharLower 'a' = 'a' from by decide]

lemma pick_smart_provider_openai_of (p : PyStr)
    (h1 : code_signals.any (fun s => pyIn s (pyLower p)) = false)
    (h2 : deep_reasoning_signals.any (fun s => pyIn s (pyLower p)) = true ∨
      900 < p.length) :
    pick_smart_provider p true false = "openai".toList := by
  have hlen : (pyLower p).length = p.length := by simp [pyLower]
  rcases h2 with h2 | h2
  · simp [pick_smart_provider, h1, h2]
  · simp [pick_smart_provider, h1, hlen, h2]

/-- C5: smart routing is the first-match-wins cascade of
`_pick_smart_provider` over the lower-cased prompt — smart mode off gives
the default provider `gemini`; else research mode gives `openai`; else a
code/debugging keyword gives `deepseek`; else an analysis keyword or a
prompt longer than 900 characters gives `openai`; else a creative keyword
gives `grok`; else `gemini` — and in particular
`"debug this stack trace in python"` (smart on, research off) routes to
`deepseek`, and a 1000-character generic prompt with smart mode routes to
`openai`. -/
theorem smart_routing_cascade :
    (∀ (p : PyStr) (r : Bool), pick_smart_provider p false r = "gemini".toList) ∧
    (∀ p : PyStr, pick_smart_provider p true true = "openai".toList) ∧
    (∀ p : PyStr, code_signals.any (fun s => pyIn s (pyLower p)) = true →
      pick_smart_provider p true false = "deepseek".toList) ∧
    (∀ p : PyStr, code_signals.any (fun s => pyIn s (pyLower p)) = false →
      (deep_reasoning_signals.any (fun s => pyIn s (pyLower p)) = true ∨
        900 < p.length) →
      pick_smart_provider p true false = "openai".toList) ∧
    (∀ p : PyStr, code_signals.any (fun s => pyIn s (pyLower p)) = false →
      deep_reasoning_signals.any (fun s => pyIn s (pyLower p)) = false →
      p.length ≤ 900 →
      creative_signals.any (fun s => pyIn s (pyLower p)) = true →
      pick_smart_provider p true false = "grok".toList) ∧
    (∀ p : PyStr, code_signals.any (fun s => pyIn s (pyLower p)) = false →
      deep_reasoning_signals.any (fun s => pyIn s (pyLower p)) = false →
      p.length ≤ 900 →
      creative_signals.any (fun s => pyIn s (pyLower p)) = false →
      pick_smart_provider p true false = "gemini".toList) ∧
    pick_smart_provider "debug this stack trace in python".toList true false
      = "deepseek".toList ∧
    pick_smart_provider (List.replicate 1000 'a') true false = "openai".toList := by
  have hlen : ∀ p : PyStr, (pyLower p).length = p.length := by
    intro p; simp [pyLower]
  refine ⟨?_, ?_, ?_, ?_, ?_, ?_, by decide, ?_⟩
  · intro p r; rfl
  · intro p; rfl
  · intro p h; simp [pick_smart_provider, h]
  · intro p h1 h2
    exact pick_smart_provider_openai_of p h1 h2
  · intro p h1 h2 h3 h4
    simp [pick_smart_provider, h1, h2, h4, hlen p, Nat.not_lt.mpr h3]
  · intro p h1 h2 h3 h4
    simp [pick_smart_provider, h1, h2, h4, hlen p, Nat.not_lt.mpr h3]
  · have hwit : ∀ s ∈ code_signals ++ deep_reasoning_signals ++ creative_signals,
        ∃ c, c ∈ s ∧ c ≠ 'a' := by decide
    have hno : ∀ s ∈ code_signals ++ deep_reasoning_signals ++ creative_signals,
        pyIn s (List.replicate 1000 'a') = false := by
      intro s hs
      obtain ⟨c, hc, hca⟩ := hwit s hs
      exact pyIn_replicate_a_eq_false s c hc hca 1000
    have hcode : code_signals.any
        (fun s => pyIn s (pyLower (List.replicate 1000 'a'))) = false := by
      rw [pyLower_replicate_a]
      apply List.any_eq_false.mpr
      intro s hs h
      rw [hno s (by simp [hs])] at h
      exact Bool.false_ne_true h
    exact pick_smart_provider_openai_of _ hcode (Or.inr (by simp))

set_option maxHeartbeats 2000000 in
lemma splitlinesAux_flatten (s acc : PyStr) :
    (splitlinesAux s acc).flatten = acc.reverse ++ s := by
  induction s, acc using splitlinesAux.induct with
  | case1 => simp [splitlinesAux]
  | case2 acc hacc => simp [splitlinesAux, hacc]
  | case3 rest acc ih => simp [splitlinesAux, ih]
  | case4 c rest acc hno hlb ih => rw [splitlinesAux.eq_3 _ _ _ hno]; simp [hlb, ih]
  | case5 c rest acc hno hlb ih => rw [splitlinesAux.eq_3 _ _ _ hno]; simp [hlb, ih]

/-- `splitlines(keepends=True)` loses no characters: the concatenation of
the returned lines is the original text. -/
lemma splitlines_flatten (s : PyStr) : (splitlines s).flatten = s := by
  simpa using splitlinesAux_flatten s []

set_option maxHeartbeats 2000000 in
lemma splitlinesAux_no_break (s acc : PyStr) :
    (∀ c ∈ s, isLineBreak c = false) →
    splitlinesAux s acc = if acc = [] ∧ s = [] then [] else [acc.reverse ++ s] := by
  induction s, acc using splitlinesAux.induct with
  | case1 => intro _; simp [splitlinesAux]
  | case2 acc hacc => intro _; simp [splitlinesAux, hacc]
  | case3 rest acc ih =>
      intro h
      exact absurd (h '\r' (by simp)) (by simp [isLineBreak])
  | case4 c rest acc hno hlb ih =>
      intro h
      exact absurd (h c (by simp)) (by simp [hlb])
  | case5 c rest acc hno hlb ih =>
      intro h
      rw [splitlinesAux.eq_3 _ _ _ hno, if_neg hlb,
        ih (fun c' hc' => h c' (List.mem_cons_of_mem _ hc'))]
      simp

/-- A non-empty text with no line-break characters is a single line. -/
lemma splitlines_no_break (t : PyStr) (ht : t ≠ [])
    (h : ∀ c ∈ t, isLineBreak c = false) : splitlines t = [t] := by
  rw [splitlines, splitlinesAux_no_break t [] h]
  simp [ht]

lemma chunk120_flatten (s : PyStr) : (chunk120 s).flatten = s := by
  have key : ∀ k, ((List.range k).map
      (fun i => (s.drop (120 * i)).take 120)).flatten = s.take (120 * k) := by
    intro k
    induction k with
    | zero => simp
    | succ k ih =>
        rw [List.range_succ, List.map_append, List.flatten_append, ih]
        simp only [List.map_cons, List.map_nil, List.flatten_cons, List.flatten_nil,
          List.append_nil]
        rw [Nat.mul_succ, List.take_add]
  rw [chunk120, key]
  have h1 := Nat.div_add_mod (s.length + 119) 120
  have h2 : (s.length + 119) % 120 < 120 := Nat.mod_lt _ (by norm_num)
  exact List.take_of_length_le (by omega)

lemma chunk120_length (s : PyStr) : (chunk120 s).length = (s.length + 119) / 120 := by
  simp [chunk120]

/-- C8: `_iter_stream_lines` returns the empty sequence on empty text; on a
text that splits into more than one line it returns the `splitlines`
decomposition, whose concatenation is the original text; otherwise it
returns the consecutive 120-character chunks — `⌈len/120⌉` of them, also
concatenating back to the text — and in particular a 300-character text
with no line break yields exactly 3 chunks. -/
theorem iter_stream_lines_characterization :
    iter_stream_lines [] = [] ∧
    (∀ t : PyStr, t ≠ [] → 1 < (splitlines t).length →
      iter_stream_lines t = splitlines t ∧ (iter_stream_lines t).flatten = t) ∧
    (∀ t : PyStr, t ≠ [] → (splitlines t).length ≤ 1 →
      iter_stream_lines t = chunk120 t ∧
      (iter_stream_lines t).length = (t.length + 119) / 120 ∧
      (iter_stream_lines t).flatten = t) ∧
    (∀ t : PyStr, t.length = 300 → (∀ c ∈ t, isLineBreak c = false) →
      (iter_stream_lines t).length = 3) := by
  refine ⟨rfl, ?_, ?_, ?_⟩
  · intro t ht hlines
    have heq : iter_stream_lines t = splitlines t := by
      rw [iter_stream_lines, if_neg ht]
      simp only [if_neg (Nat.not_le.mpr hlines)]
    exact ⟨heq, by rw [heq]; exact splitlines_flatten t⟩
  · intro t ht hlines
    have heq : iter_stream_lines t = chunk120 t := by
      rw [iter_stream_lines, if_neg ht]
      simp only [if_pos hlines]
    exact ⟨heq, by rw [heq]; exact chunk120_length t,
      by rw [heq]; exact chunk120_flatten t⟩
  · intro t hlen hnb
    have ht : t ≠ [] := by
      intro h
      rw [h] at hlen
      simp at hlen
    have hone : (splitlines t).length ≤ 1 := by
      rw [splitlines_no_break t ht hnb]
      simp
    have heq : iter_stream_lines t = chunk120 t := by
      rw [iter_stream_lines, if_neg ht]
      simp only [if_pos hone]
    rw [heq, chunk120_length, hlen]

/-- Witness for C8: a 300-character single-block text yields exactly
`⌈300/120⌉ = 3` line chunks. -/
theorem iter_stream_lines_characterization_witness :
    ((List.replicate 300 'x').length = 300 ∧
      ∀ c ∈ List.replicate 300 'x', isLineBreak c = false) ∧
      (iter_stream_lines (List.replicate 300 'x')).length = 3 := by
  refine ⟨⟨by decide, by decide⟩, ?_⟩
  exact iter_stream_lines_characterization.2.2.2 _ (by decide) (by decide)

/-! ## Chat stream (`src/server/routes/chat.py`); `streamText` above is the
same `stream_text` computation both stream generators share. -/

/-- NDJSON events of the single-target chat stream. -/
inductive ChatEvent where
  | start (provider model : PyStr) (research_mode : Bool)
  | line (index : Nat) (text : PyStr)
  | response_done (index : Nat) (response : UnifiedResponse)
  | done
  | error (message : String)
deriving DecidableEq

/-- `chat_stream.event_stream` from `src/server/routes/chat.py`, as a
function of the outcome of the `try` body: `Except.ok r` when
`orchestrator.ask` returns `r`, `Except.error msg` when the call path
raises an unnormalized exception with message `msg` (the best-effort
`save_chat` block swallows its own exceptions and emits nothing). -/
def chat_stream_events (provider model : PyStr) (research_mode : Bool)
    (outcome : Except String UnifiedResponse) : List ChatEvent :=
  ChatEvent.start provider model research_mode ::
    match outcome with
    | .ok r =>
        (iter_stream_lines (streamText r)).map (ChatEvent.line 0)
          ++ [ChatEvent.response_done 0 r, ChatEvent.done]
    | .error msg => [ChatEvent.error msg]

def isStartEvent : ChatEvent → Bool
  | .start _ _ _ => true
  | _ => false

def isLineEvent : ChatEvent → Bool
  | .line _ _ => true
  | _ => false

def isResponseDoneEvent : ChatEvent → Bool
  | .response_done _ _ => true
  | _ => false

def isDoneEvent : ChatEvent → Bool
  | .done => true
  | _ => false

def isErrorEvent : ChatEvent → Bool
  | .error _ => true
  | _ => false

/-- C9: the single-target chat stream emits exactly one `start` event
first, then zero or more `line` events, then one `response_done` carrying
the final response, then one terminal `done`; when the call path raises an
unnormalized exception, exactly one `error` event is emitted and no event
of any kind follows it. -/
theorem chat_stream_event_order (p m : PyStr) (rm : Bool)
    (outcome : Except String UnifiedResponse) :
    (chat_stream_events p m rm outcome).head? = some (ChatEvent.start p m rm) ∧
    ((chat_stream_events p m rm outcome).countP isStartEvent) = 1 ∧
    (∀ r, outcome = Except.ok r →
      chat_stream_events p m rm outcome
        = ChatEvent.start p m rm
            :: (iter_stream_lines (streamText r)).map (ChatEvent.line 0)
            ++ [ChatEvent.response_done 0 r, ChatEvent.done] ∧
      ((chat_stream_events p m rm outcome).countP isResponseDoneEvent) = 1 ∧
      ((chat_stream_events p m rm outcome).countP isDoneEvent) = 1 ∧
      ((chat_stream_events p m rm outcome).countP isErrorEvent) = 0 ∧
      (chat_stream_events p m rm outcome).getLast? = some ChatEvent.done) ∧
    (∀ msg, outcome = Except.error msg →
      chat_stream_events p m rm outcome
          = [ChatEvent.start p m rm, ChatEvent.error msg] ∧
      ((chat_stream_events p m rm outcome).countP isErrorEvent) = 1 ∧
      (chat_stream_events p m rm outcome).getLast? = some (ChatEvent.error msg)) := by
  refine ⟨?_, ?_, ?_, ?_⟩
  · cases outcome <;> rfl
  · cases outcome <;>
      simp [chat_stream_events, List.countP_cons, List.countP_append,
        List.countP_map, isStartEvent, List.countP_eq_zero, Function.comp_def]
  · rintro r rfl
    refine ⟨rfl, ?_, ?_, ?_, ?_⟩
    · simp [chat_stream_events, List.countP_cons, List.countP_append,
        List.countP_map, isResponseDoneEvent, List.countP_eq_zero,
        Function.comp_def]
    · simp [chat_stream_events, List.countP_cons, List.countP_append,
        List.countP_map, isDoneEvent, List.countP_eq_zero, Function.comp_def]
    · simp [chat_stream_events, List.countP_cons, List.countP_append,
        List.countP_map, isErrorEvent, List.countP_eq_zero, Function.comp_def]
    · rw [chat_stream_events]
      rw [show ∀ (x : ChatEvent) (a : List ChatEvent) (b c : ChatEvent),
        x :: (a ++ [b, c]) = (x :: a ++ [b]) ++ [c] by intro x a b c; simp]
      exact List.getLast?_concat _
  · rintro msg rfl
    exact ⟨rfl, by simp [chat_stream_events, List.countP_cons, isErrorEvent,
      isStartEvent], rfl⟩

/-- Witness for C9: both outcomes evaluated at a concrete response and a
concrete exception message. -/
theorem chat_stream_event_order_witness :
    (chat_stream_events "openai".toList "gpt-4o".toList false
        (Except.ok (sampleResponse "openai".toList "gpt-4o".toList))
      = ChatEvent.start "openai".toList "gpt-4o".toList false
          :: (iter_stream_lines
              (streamText (sampleResponse "openai".toList "gpt-4o".toList))).map
              (ChatEvent.line 0)
          ++ [ChatEvent.response_done 0
                (sampleResponse "openai".toList "gpt-4o".toList), ChatEvent.done]) ∧
    (chat_stream_events "openai".toList "gpt-4o".toList false (Except.error "boom")
      = [ChatEvent.start "openai".toList "gpt-4o".toList false,
         ChatEvent.error "boom"]) := by
  constructor
  · exact ((chat_stream_event_order "openai".toList "gpt-4o".toList false
      (Except.ok (sampleResponse "openai".toList "gpt-4o".toList))).2.2.1
        _ rfl).1
  · exact ((chat_stream_event_order "openai".toList "gpt-4o".toList false
      (Except.error "boom")).2.2.2 _ rfl).1

/-! ## Compare route validation (`src/server/routes/compare.py`) -/

/-- `MAX_COMPARE_TARGETS` from `src/server/routes/compare.py`. -/
def MAX_COMPARE_TARGETS : Nat := 4

/-- An `HTTPException(status_code=..., detail=...)` raised by a route. -/
structure HTTPError where
  status_code : Nat
  detail : String
deriving DecidableEq

/-- The validation prelude that `compare` (lines 134-144) and
`compare_stream` (lines 204-214) both run, verbatim, before any other
work: more than `MAX_COMPARE_TARGETS` targets, or a context with more than
2 targets, raises HTTP 400. -/
def compare_request_validation (target_count : Nat) (has_context : Bool) :
    Option HTTPError :=
  if target_count > MAX_COMPARE_TARGETS then
    some ⟨400, "Maximum 4 targets allowed"⟩
  else if has_context ∧ target_count > 2 then
    some ⟨400, "Context not allowed with more than 2 targets"⟩
  else none

/-- The `compare` route: the validation prelude, then the orchestrator
call and response assembly, abstracted as `body`.  A raised
`HTTPException` means `body` is never entered. -/
def compare_route {α : Type} (target_count : Nat) (has_context : Bool)
    (body : Unit → α) : Except HTTPError α :=
  match compare_request_validation target_count has_context with
  | some e => Except.error e
  | none => Except.ok (body ())

/-- The `compare_stream` route: the identical validation prelude, then the
construction of the streaming response, abstracted as `body`. -/
def compare_stream_route {α : Type} (target_count : Nat) (has_context : Bool)
    (body : Unit → α) : Except HTTPError α :=
  match compare_request_validation target_count has_context with
  | some e => Except.error e
  | none => Except.ok (body ())

/-- C10: both compare endpoints reject with HTTP 400 every request that
supplies a conversation context together with more than 2 targets, and the
rejection happens before the orchestrator / any provider is contacted —
the outcome is the same for every `body`.  (The spec's request shape allows
an optional context with 2 to 4 targets and states no such restriction.) -/
theorem compare_context_with_more_than_two_targets_rejected
    (n : Nat) (hn : 2 < n) :
    ∃ e : HTTPError, e.status_code = 400 ∧
      compare_request_validation n true = some e ∧
      (∀ (α : Type) (body : Unit → α),
        compare_route n true body = Except.error e) ∧
      (∀ (α : Type) (body : Unit → α),
        compare_stream_route n true body = Except.error e) := by
  by_cases h4 : n > MAX_COMPARE_TARGETS
  · refine ⟨⟨400, "Maximum 4 targets allowed"⟩, rfl, ?_, ?_, ?_⟩
    · rw [compare_request_validation, if_pos h4]
    · intro α body
      rw [compare_route, compare_request_validation, if_pos h4]
    · intro α body
      rw [compare_stream_route, compare_request_validation, if_pos h4]
  · refine ⟨⟨400, "Context not allowed with more than 2 targets"⟩, rfl, ?_, ?_, ?_⟩
    · rw [compare_request_validation, if_neg h4, if_pos ⟨rfl, hn⟩]
    · intro α body
      rw [compare_route, compare_request_validation, if_neg h4,
        if_pos ⟨rfl, hn⟩]
    · intro α body
      rw [compare_stream_route, compare_request_validation, if_neg h4,
        if_pos ⟨rfl, hn⟩]

/-- Witness for C10: a 3-target compare request with a context is rejected
with HTTP 400 by both endpoints. -/
theorem compare_context_with_more_than_two_targets_rejected_witness :
    (2 < 3) ∧
      ∃ e : HTTPError, e.status_code = 400 ∧
        compare_request_validation 3 true = some e ∧
        (∀ (α : Type) (body : Unit → α),
          compare_route 3 true body = Except.error e) ∧
        (∀ (α : Type) (body : Unit → α),
          compare_stream_route 3 true body = Except.error e) :=
  ⟨by decide, compare_context_with_more_than_two_targets_rejected 3 (by decide)⟩

/-! ## Request schemas (`src/server/schemas/requests.py`) -/

/-- The regex `^(openai|gemini|deepseek|grok)$` used by the `provider`
fields of `ChatRequest` and `CompareTargetRequest`. -/
def providerPatternMatches (s : PyStr) : Bool :=
  s = "openai".toList || s = "gemini".toList ||
    s = "deepseek".toList || s = "grok".toList

/-- Validation performed by the `ChatRequest` pydantic model
(`server/schemas/requests.py` lines 17-23) on the fields the claims are
about: `prompt` is required with `min_length=1`, and `provider` is a
REQUIRED field restricted to the provider pattern (`Field(...)` with no
default).  A missing field arrives as `none`. -/
def chatRequestValidates (prompt provider : Option PyStr) : Bool :=
  (match prompt with
   | some p => 1 ≤ p.length
   | none => false) &&
  (match provider with
   | some p => providerPatternMatches p
   | none => false)

/-- The field names `ChatRequest` declares. -/
def chatRequestFields : List String :=
  ["prompt", "provider", "model", "context", "temperature", "max_tokens"]

/-- The field names `CompareRequest` declares. -/
def compareRequestFields : List String :=
  ["prompt", "targets", "context", "timeout_s", "temperature", "max_tokens"]

/-- C6 (the schema contradicts this claim and its own callers): the claim
says the exposed request shape accepts provider/model as optional plus
optional routing hints, and that a request naming no provider is resolved
by the Routing Policy.  The declared `ChatRequest` schema instead rejects
a valid-prompt request with no `provider`, rejects an empty-string
`provider`, and declares no `routing` field on either request model —
while `chat.py`'s own `_resolve_chat_target` (embedded above) resolves a
missing provider through `_pick_smart_provider` exactly as the claim
describes, so the schema is the slip. -/
theorem chat_request_schema_contradicts_optional_provider :
    chatRequestValidates (some "hello".toList) none = false ∧
    chatRequestValidates (some "hello".toList) (some [] ) = false ∧
    chatRequestValidates (some "hello".toList) (some "openai".toList) = true ∧
    ("routing" ∈ chatRequestFields) = False ∧
    ("routing" ∈ compareRequestFields) = False ∧
    resolve_chat_target (fun _ => none)
        { prompt := "hello".toList, provider := none, model := none,
          routing := none }
      = some ("gemini".toList, "gemini-2.5-flash".toList) := by
  refine ⟨rfl, rfl, rfl, ?_, ?_, by decide⟩
  · simp [chatRequestFields]
  · simp [compareRequestFields]

/-- Counterexample to C7 as stated: in the compare stream, the target
`{provider: "openai", model: ""}` (index 0 of `sampleBadEnv`) names a valid
provider and an empty model, yet it is rejected with a `bad_request` error
instead of proceeding with the provider's default model. -/
theorem compare_empty_model_rejected_counterexample :
    targetProvider (sampleBadEnv.target 0) = "openai".toList ∧
      targetModel (sampleBadEnv.target 0) = [] ∧
      (((comparePayload sampleBadEnv [1]).responses.getD 0 default).error.map
        (fun e => (e.code, e.retryable))) = some ("bad_request", false) ∧
      ((comparePayload sampleBadEnv [1]).responses.getD 0 default).model
        = "unknown".toList := by decide

/-- C7 as amended: in the chat route, a request naming a valid provider
with an empty model proceeds with that provider's default model (static
`DEFAULT_MODELS` table, overridable through the environment lookup); in the
compare stream, a target with an empty model is instead rejected
synchronously with a `bad_request` error and no default is applied. -/
theorem chat_empty_model_defaulted_compare_empty_model_rejected :
    (∀ (getenv : PyStr → Option PyStr) (req : ChatRequestData) (p : PyStr),
      req.provider = some p →
      pyLower (pyStrip p) ∈ DEFAULT_MODELS.map Prod.fst →
      pyStrip (req.model.getD []) = [] →
      ∃ d, default_model_for_provider getenv (pyLower (pyStrip p)) = some d ∧
        resolve_chat_target getenv req = some (pyLower (pyStrip p), d)) ∧
    (∀ (env : CompareEnv) (perm : List Nat), perm.Perm (validIndices env) →
      ∀ i, i < env.targets.length → targetModel (env.target i) = [] →
      ∃ e, ((comparePayload env perm).responses.getD i default).error = some e ∧
        e.code = "bad_request" ∧ e.retryable = false) := by
  constructor
  · intro getenv req p hp hmem hmodel
    have hkeys : ∀ k ∈ DEFAULT_MODELS.map Prod.fst, k ≠ ([] : PyStr) := by decide
    have hne : pyLower (pyStrip p) ≠ [] := hkeys _ hmem
    have hlook : ∃ d0, DEFAULT_MODELS.lookup (pyLower (pyStrip p)) = some d0 := by
      simp only [DEFAULT_MODELS, List.map_cons, List.map_nil, List.mem_cons,
        List.not_mem_nil, or_false] at hmem
      rcases hmem with h | h | h | h
      · exact ⟨"gpt-4o".toList, by rw [h]; decide⟩
      · exact ⟨"gemini-2.5-flash".toList, by rw [h]; decide⟩
      · exact ⟨"deepseek-chat".toList, by rw [h]; decide⟩
      · exact ⟨"grok-4-latest".toList, by rw [h]; decide⟩
    obtain ⟨d0, hd0⟩ := hlook
    refine ⟨(getenv ("DEFAULT_".toList ++ pyUpper (pyLower (pyStrip p))
        ++ "_MODEL".toList)).getD d0, ?_, ?_⟩
    · rw [default_model_for_provider, hd0]
    · simp only [resolve_chat_target, hp, Option.getD_some, hmodel,
        ne_eq, not_true_eq_false, if_false, if_neg, hne, not_false_eq_true,
        if_true, default_model_for_provider, hd0, Option.map_some]
      rfl
  · intro env perm hperm i hi hmodel
    have hinv : ¬ targetValid (env.target i) = true := by
      simp [targetValid, hmodel]
    rw [comparePayload_responses_getD env perm hperm i hi, targetOutcome,
      if_neg hinv]
    exact ⟨_, rfl, rfl, rfl⟩

/-- Witness for the amended C7: the chat request `provider="openai"`,
`model` empty resolves to `("openai", "gpt-4o")` with no environment
override, and the empty-model compare target of the concrete environment
is rejected with `bad_request`. -/
theorem chat_empty_model_defaulted_compare_empty_model_rejected_witness :
    (∃ d, default_model_for_provider (fun _ => none)
          (pyLower (pyStrip "openai".toList)) = some d ∧
        resolve_chat_target (fun _ => none)
            { prompt := "hi".toList, provider := some "openai".toList,
              model := none, routing := none }
          = some (pyLower (pyStrip "openai".toList), d)) ∧
    (∃ e, ((comparePayload sampleBadEnv [1]).responses.getD 0 default).error
        = some e ∧ e.code = "bad_request" ∧ e.retryable = false) := by
  constructor
  · exact chat_empty_model_defaulted_compare_empty_model_rejected.1
      (fun _ => none)
      { prompt := "hi".toList, provider := some "openai".toList,
        model := none, routing := none }
      "openai".toList rfl (by decide) (by decide)
  · exact chat_empty_model_defaulted_compare_empty_model_rejected.2
      sampleBadEnv [1] (by decide) 0 (by decide) (by decide)

/-- Witness for C5: the code-keyword branch fires on the concrete debug
prompt and routes it to `deepseek`. -/
theorem smart_routing_cascade_witness :
    code_signals.any
        (fun s => pyIn s (pyLower "debug this stack trace in python".toList))
      = true ∧
    pick_smart_provider "debug this stack trace in python".toList true false
      = "deepseek".toList :=
  ⟨by decide, smart_routing_cascade.2.2.1 _ (by decide)⟩
